import Mathlib

/-! Shallow embedding of `src/server.js` (ApiHitos): an Express + mysql2 backend
with two tables (`etapas`, `hitos`), CRUD routes, and a multer image upload.

Modelling conventions:
* JavaScript values that reach a SQL bind parameter are modelled by `JVal`
  (`undefined` is what destructuring an absent body field yields).
* `pool.query` uses the mysql2 text protocol: every bind parameter is
  serialized client-side by sqlstring's `escape`, which turns both
  `undefined` and `null` into SQL `NULL` (`toSql` below).
* The MySQL storage collaborator runs with default (strict) semantics:
  a single-row INSERT of explicit NULL into a NOT NULL column fails with
  an error, an UPDATE that matches at least one row and sets a NOT NULL
  column to NULL fails, and the `hitos.etapa_id` foreign key must
  reference an existing `etapas.id`.  An INSERT never falls back to a
  column's DEFAULT when the column is explicitly listed in the statement.
* Each route handler catches storage errors and answers 500; that is the
  `.error` / status-500 branch of each endpoint function.
-/

namespace ApiHitos

/-- A JavaScript value as it appears in a request body after destructuring:
an absent field destructures to `undefined`. -/
inductive JVal where
  | undefined
  | null
  | str (s : String)
  | num (n : Int)
deriving DecidableEq, Repr

/-- JavaScript truthiness, used by the `fecha_finalizacion || null`
coalescing in the create and update milestone handlers. -/
def JVal.truthy : JVal → Bool
  | .undefined => false
  | .null => false
  | .str s => s ≠ ""
  | .num n => n ≠ 0

/-- The JavaScript `a || b` operator. -/
def jsOr (a b : JVal) : JVal := if a.truthy then a else b

/-- A SQL value stored in a column. -/
inductive SqlVal where
  | null
  | str (s : String)
  | int (n : Int)
deriving DecidableEq, Repr

/-- Client-side bind-parameter serialization performed by `pool.query`
(sqlstring `escape`): both `undefined` and `null` become SQL `NULL`. -/
def toSql : JVal → SqlVal
  | .undefined => .null
  | .null => .null
  | .str s => .str s
  | .num n => .int n

/-- A row of the `etapas` table (`id` is the AUTO_INCREMENT primary key;
`nombre` and `color` are NOT NULL columns). -/
structure EtapaRow where
  id : Nat
  nombre : SqlVal
  color : SqlVal
deriving DecidableEq, Repr

/-- A row of the `hitos` table. `item`, `etapa_id`, `fecha_inicio` and
`ubicacion` are NOT NULL; `fecha_finalizacion`, `comentarios` and
`ilustracion` are nullable; `etapa_id` is a foreign key into `etapas`. -/
structure HitoRow where
  id : Nat
  item : SqlVal
  etapa_id : SqlVal
  fecha_inicio : SqlVal
  ubicacion : SqlVal
  fecha_finalizacion : SqlVal
  comentarios : SqlVal
  ilustracion : SqlVal
deriving DecidableEq, Repr

/-- The database state: both tables plus the AUTO_INCREMENT counters. -/
structure DB where
  etapas : List EtapaRow
  hitos : List HitoRow
  nextEtapaId : Nat
  nextHitoId : Nat
deriving DecidableEq, Repr

/-- Comparison of a stored `etapa_id` value against an etapa `id`
(the `WHERE etapa_id = ?` / `REFERENCES etapas(id)` match). -/
def sqlRefEq (v : SqlVal) (eid : Nat) : Bool := v = SqlVal.int eid

/-- The foreign-key check: does `v` reference some existing etapa row? -/
def etapaExists (v : SqlVal) (etapas : List EtapaRow) : Bool :=
  etapas.any fun e => sqlRefEq v e.id

/-- A milestone row joined with its stage's name and color, as produced by
the `GET /api/hitos` query (`SELECT h.*, e.nombre as etapa, e.color as
etapa_color FROM hitos h JOIN etapas e ON h.etapa_id = e.id`). -/
structure JoinedHito where
  id : Nat
  item : SqlVal
  etapa_id : SqlVal
  fecha_inicio : SqlVal
  ubicacion : SqlVal
  fecha_finalizacion : SqlVal
  comentarios : SqlVal
  ilustracion : SqlVal
  etapa : SqlVal
  etapa_color : SqlVal
deriving DecidableEq, Repr

/-- Response bodies sent by the handlers. -/
inductive RespBody where
  | etapaRows (rows : List EtapaRow)
  | hitoRows (rows : List JoinedHito)
  | etapaCreated (id : Nat) (nombre color : JVal)
  | hitoCreated (id : Nat)
  | success
  | error (msg : String)
  | url (u : String)
deriving DecidableEq, Repr

/-- An HTTP response: status code plus JSON body. -/
structure HttpResp where
  status : Nat
  body : RespBody
deriving DecidableEq, Repr

/-- Request body of `POST /api/etapas` after `const { nombre, color } =
req.body` (an omitted field is `undefined`). -/
structure EtapaBody where
  nombre : JVal
  color : JVal
deriving DecidableEq, Repr

/-- Request body of `POST /api/hitos` and `PUT /api/hitos/:id` after
destructuring (an omitted field is `undefined`). -/
structure HitoBody where
  item : JVal
  etapa_id : JVal
  fecha_inicio : JVal
  ubicacion : JVal
  fecha_finalizacion : JVal
  comentarios : JVal
  ilustracion : JVal
deriving DecidableEq, Repr

/-- Route `GET /api/etapas`: all etapa rows ordered by ascending id. -/
def apiEtapasGet (s : DB) : HttpResp :=
  ⟨200, .etapaRows (s.etapas.mergeSort fun a b => a.id ≤ b.id)⟩

/-- Route `POST /api/etapas`: `INSERT INTO etapas (nombre, color) VALUES (?, ?)`
with both bind parameters serialized by `toSql`; both columns are NOT NULL,
so an explicit NULL makes the insert fail (handler answers 500), otherwise
the row is stored and the handler echoes `{id, nombre, color}` with 201. -/
def apiEtapasPost (b : EtapaBody) (s : DB) : HttpResp × DB :=
  let vn := toSql b.nombre
  let vc := toSql b.color
  if vn ≠ SqlVal.null ∧ vc ≠ SqlVal.null then
    (⟨201, .etapaCreated s.nextEtapaId b.nombre b.color⟩,
     { s with etapas := s.etapas ++ [⟨s.nextEtapaId, vn, vc⟩],
              nextEtapaId := s.nextEtapaId + 1 })
  else
    (⟨500, .error "Error al crear etapa"⟩, s)

/-- The guard count of `DELETE /api/etapas/:id`:
`SELECT COUNT(*) as count FROM hitos WHERE etapa_id = ?`. -/
def countRefs (pid : Nat) (s : DB) : Nat :=
  s.hitos.countP fun h => sqlRefEq h.etapa_id pid

/-- Route `DELETE /api/etapas/:id`: count referencing hitos; if the count is
positive answer 400 and change nothing, otherwise run
`DELETE FROM etapas WHERE id = ?` and answer `{success: true}`. -/
def apiEtapasDelete (pid : Nat) (s : DB) : HttpResp × DB :=
  if countRefs pid s > 0 then
    (⟨400, .error "No se puede eliminar esta etapa porque está siendo utilizada por uno o más hitos"⟩, s)
  else
    (⟨200, .success⟩, { s with etapas := s.etapas.filter fun e => e.id ≠ pid })

/-- The join step of `GET /api/hitos`: each hito row paired with the etapa
row its `etapa_id` references (an inner join on the primary key: a hito
whose `etapa_id` matches no etapa is dropped). -/
def hitosJoined (s : DB) : List JoinedHito :=
  s.hitos.filterMap fun h =>
    match s.etapas.find? (fun e => sqlRefEq h.etapa_id e.id) with
    | some e => some ⟨h.id, h.item, h.etapa_id, h.fecha_inicio, h.ubicacion,
                      h.fecha_finalizacion, h.comentarios, h.ilustracion,
                      e.nombre, e.color⟩
    | none => none

/-- Sort key of `ORDER BY h.item` (ascending, NULLs first). -/
def itemLe (a b : JoinedHito) : Bool :=
  match a.item, b.item with
  | .null, _ => true
  | _, .null => false
  | .int m, .int n => m ≤ n
  | .int _, .str _ => true
  | .str _, .int _ => false
  | .str u, .str v => u ≤ v

/-- Route `GET /api/hitos`: the joined rows ordered by ascending `item`. -/
def apiHitosGet (s : DB) : HttpResp :=
  ⟨200, .hitoRows ((hitosJoined s).mergeSort itemLe)⟩

/-- The constraint check the storage layer applies to the hito column
values of an INSERT (or of an UPDATE that matches at least one row):
`item`, `etapa_id`, `fecha_inicio`, `ubicacion` are NOT NULL and
`etapa_id` must reference an existing etapa. `item` is absent from the
UPDATE statement, so the UPDATE variant checks the remaining columns. -/
def hitoInsertOk (vitem vetapa vini vubi : SqlVal) (etapas : List EtapaRow) : Bool :=
  vitem ≠ SqlVal.null && vetapa ≠ SqlVal.null && etapaExists vetapa etapas
    && vini ≠ SqlVal.null && vubi ≠ SqlVal.null

/-- Constraint check for the `UPDATE hitos SET ...` column values (the
UPDATE does not touch `item`). -/
def hitoUpdateOk (vetapa vini vubi : SqlVal) (etapas : List EtapaRow) : Bool :=
  vetapa ≠ SqlVal.null && etapaExists vetapa etapas
    && vini ≠ SqlVal.null && vubi ≠ SqlVal.null

/-- Route `POST /api/hitos`: destructure the body, coalesce only
`fecha_finalizacion` with `|| null`, serialize every bind parameter with
`toSql`, and insert. A constraint violation surfaces as a generic 500;
success answers 201 with `{id: result.insertId, success: true}`. -/
def apiHitosPost (b : HitoBody) (s : DB) : HttpResp × DB :=
  let vitem := toSql b.item
  let vetapa := toSql b.etapa_id
  let vini := toSql b.fecha_inicio
  let vubi := toSql b.ubicacion
  let vfin := toSql (jsOr b.fecha_finalizacion JVal.null)
  let vcom := toSql b.comentarios
  let vilu := toSql b.ilustracion
  if hitoInsertOk vitem vetapa vini vubi s.etapas then
    (⟨201, .hitoCreated s.nextHitoId⟩,
     { s with hitos := s.hitos ++
         [⟨s.nextHitoId, vitem, vetapa, vini, vubi, vfin, vcom, vilu⟩],
              nextHitoId := s.nextHitoId + 1 })
  else
    (⟨500, .error "Error al crear hito"⟩, s)

/-- The row transformation of `UPDATE hitos SET etapa_id = ?, fecha_inicio
= ?, ubicacion = ?, fecha_finalizacion = ?, comentarios = ?, ilustracion =
? WHERE id = ?`: rows whose `id` matches get the six new column values,
every other row is untouched; `id` and `item` appear in no SET clause. -/
def hitoUpdFn (pid : Nat) (vetapa vini vubi vfin vcom vilu : SqlVal)
    (h : HitoRow) : HitoRow :=
  if h.id = pid then
    { h with etapa_id := vetapa, fecha_inicio := vini, ubicacion := vubi,
             fecha_finalizacion := vfin, comentarios := vcom,
             ilustracion := vilu }
  else h

/-- The UPDATE applied to the whole table: every matching row rewritten. -/
def applyHitoUpdate (pid : Nat) (vetapa vini vubi vfin vcom vilu : SqlVal)
    (rows : List HitoRow) : List HitoRow :=
  rows.map (hitoUpdFn pid vetapa vini vubi vfin vcom vilu)

/-- Route `PUT /api/hitos/:id`: serialize the six body fields (only
`fecha_finalizacion` is coalesced) and run the UPDATE. When no row
matches the id the statement succeeds vacuously; when some row matches,
the new column values must satisfy the NOT NULL and foreign-key
constraints, otherwise the statement fails and the handler answers 500.
Success answers `{success: true}`. -/
def apiHitosPut (pid : Nat) (b : HitoBody) (s : DB) : HttpResp × DB :=
  let vetapa := toSql b.etapa_id
  let vini := toSql b.fecha_inicio
  let vubi := toSql b.ubicacion
  let vfin := toSql (jsOr b.fecha_finalizacion JVal.null)
  let vcom := toSql b.comentarios
  let vilu := toSql b.ilustracion
  if (s.hitos.any fun h => h.id = pid) ∧
      ¬ hitoUpdateOk vetapa vini vubi s.etapas then
    (⟨500, .error "Error al actualizar hito"⟩, s)
  else
    (⟨200, .success⟩,
     { s with hitos := applyHitoUpdate pid vetapa vini vubi vfin vcom vilu s.hitos })

/-- Route `DELETE /api/hitos/:id`: unconditional `DELETE FROM hitos WHERE id = ?`
followed by `{success: true}`. -/
def apiHitosDelete (pid : Nat) (s : DB) : HttpResp × DB :=
  (⟨200, .success⟩, { s with hitos := s.hitos.filter fun h => h.id ≠ pid })

/-! Upload pipeline: multer and the route handler. -/

/-- Index (from the left) of the last `.` in a character list. -/
def lastDotPos (l : List Char) : Option Nat :=
  match l with
  | [] => none
  | c :: rest =>
    match lastDotPos rest with
    | some i => some (i + 1)
    | none => if c = '.' then some 0 else none

/-- Node's `path.extname` for a plain file name (no directory separators):
the substring starting at the last `.`, or `""` when there is no `.` or
the only `.` starts the name. -/
def extname (s : String) : String :=
  match lastDotPos s.data with
  | none => ""
  | some 0 => ""
  | some i => ⟨s.data.drop i⟩

/-- Does the character list `l` start with `pat`? -/
def startsWith : List Char → List Char → Bool
  | [], _ => true
  | _ :: _, [] => false
  | a :: as, b :: bs => a = b && startsWith as bs

/-- Does the character list `l` contain `pat` as a contiguous run? (The
scan a regex engine performs for an unanchored literal alternative.) -/
def hasRun (pat : List Char) : List Char → Bool
  | [] => pat.isEmpty
  | c :: t => startsWith pat (c :: t) || hasRun pat t

/-- The test of the unanchored regex `/jpeg|jpg|png|gif/`: true iff the
string contains one of the four tokens as a substring. -/
def filetypesTest (s : String) : Bool :=
  hasRun "jpeg".data s.data || hasRun "jpg".data s.data
    || hasRun "png".data s.data || hasRun "gif".data s.data

/-- A file arriving in a multipart field. -/
structure UploadFile where
  originalname : String
  mimetype : String
  size : Nat
deriving DecidableEq, Repr

/-- JavaScript's `String.prototype.toLowerCase` (ASCII case mapping is
all the upload paths exercise): lower-case every character. -/
def strToLower (s : String) : String := ⟨s.data.map Char.toLower⟩

/-- The multer `fileFilter`: accept iff the regex test passes on the
declared mimetype AND on the lower-cased extension of the original name. -/
def fileFilter (f : UploadFile) : Bool :=
  filetypesTest f.mimetype && filetypesTest (strToLower (extname f.originalname))

/-- The multer byte cap: `limits: { fileSize: 5 * 1024 * 1024 }`. -/
def fileSizeLimit : Nat := 5 * 1024 * 1024

/-- The stored file name produced by `multer.diskStorage`:
`Date.now() + path.extname(file.originalname)`. -/
def storedFilename (now : Nat) (f : UploadFile) : String :=
  toString now ++ extname f.originalname

/-- Outcome of running `upload.single('imagen')` on a request carrying at
most one file in the `imagen` field: either a middleware error (the
fileFilter rejection or the size limit), or the request proceeds with
`req.file` set when a file was accepted. -/
def multerSingle (now : Nat) (file : Option UploadFile) :
    Except String (Option String) :=
  match file with
  | none => .ok none
  | some f =>
    if fileFilter f then
      if f.size ≤ fileSizeLimit then .ok (some (storedFilename now f))
      else .error "File too large"
    else .error "Solo se permiten imágenes (jpeg, jpg, png, gif)"

/-- A request to `POST /api/upload`: protocol and Host header, the file
carried in the multipart `imagen` field (if any), and the clock value
`Date.now()` reads when the file is stored. -/
structure UploadReq where
  protocol : String
  host : String
  now : Nat
  file : Option UploadFile
deriving DecidableEq, Repr

/-- Route `POST /api/upload`: a multer error falls through to Express's default
error handler (500); otherwise a missing `req.file` answers 400 and an
accepted file answers 200 with the public URL
`protocol://host/uploads/filename`. -/
def apiUpload (req : UploadReq) : HttpResp :=
  match multerSingle req.now req.file with
  | .error _ => ⟨500, .error "upload middleware error"⟩
  | .ok none => ⟨400, .error "No se ha enviado ninguna imagen"⟩
  | .ok (some fname) =>
    ⟨200, .url (req.protocol ++ "://" ++ req.host ++ "/uploads/" ++ fname)⟩

/-! Schema bootstrapper `initDB`. -/

/-- The I/O outcomes the bootstrap run can encounter: whether the pool
yields a connection and whether each of the queries issued inside the
`try` block succeeds or throws. -/
structure InitEnv where
  getConnOk : Bool
  createEtapasOk : Bool
  createHitosOk : Bool
  selectEtapasOk : Bool
  etapasEmpty : Bool
  insertSeedOk : Bool
deriving DecidableEq, Repr

/-- Observable outcome of one `initDB` run. -/
structure InitOutcome where
  acquired : Bool
  released : Bool
  errorLogged : Bool
deriving DecidableEq, Repr

/-- Bootstrapper `initDB`: acquire a connection, create both tables, seed the four
default etapas when the table is empty, then `connection.release()`. The
whole body sits in one `try`; any throw jumps to the `catch`, which only
logs — `connection.release()` is on the success path, not in a
`finally`. -/
def initDB (env : InitEnv) : InitOutcome :=
  if ¬ env.getConnOk then ⟨false, false, true⟩
  else if ¬ env.createEtapasOk then ⟨true, false, true⟩
  else if ¬ env.createHitosOk then ⟨true, false, true⟩
  else if ¬ env.selectEtapasOk then ⟨true, false, true⟩
  else if env.etapasEmpty ∧ ¬ env.insertSeedOk then ⟨true, false, true⟩
  else ⟨true, true, false⟩

/-! Sample data used by witnesses and counterexamples. -/

/-- A seeded etapa row. -/
def e1 : EtapaRow := ⟨1, .str "Planificación", .str "#4f46e5"⟩

/-- A hito row referencing `e1`, with non-null comments. -/
def h1 : HitoRow :=
  ⟨1, .int 1, .int 1, .str "2024-01-01", .str "A", .null, .str "keep", .null⟩

/-- A small database state: one etapa, one hito referencing it. -/
def s0 : DB := ⟨[e1], [h1], 2, 2⟩

/-- A database state with one etapa and no hitos. -/
def s1 : DB := ⟨[e1], [], 2, 1⟩

/-- A milestone body that omits `comentarios` and `ilustracion` and has a
falsy (empty-string) `fecha_finalizacion`. -/
def b10 : HitoBody :=
  ⟨.num 2, .num 1, .str "2024-03-01", .str "Y", .str "", .undefined, .undefined⟩

/-- An update body carrying new `ubicacion` and `fecha_finalizacion`
values (plus the required fields) but omitting `comentarios` and
`ilustracion`. -/
def b2 : HitoBody :=
  ⟨.undefined, .num 1, .str "2024-01-01", .str "B", .str "2024-02-02",
   .undefined, .undefined⟩

/-! Helper lemmas. -/

/-- A list maps to itself under a function that fixes its members. -/
theorem map_eq_self_of_fix {α : Type} {f : α → α} {l : List α}
    (h : ∀ a ∈ l, f a = a) : l.map f = l := by
  calc l.map f = l.map id := List.map_congr_left h
  _ = l := List.map_id l

/-- The UPDATE row transformation never changes a row's `id`. -/
theorem hitoUpdFn_id (pid : Nat) (ve vi vu vf vc vl : SqlVal) (h : HitoRow) :
    (hitoUpdFn pid ve vi vu vf vc vl h).id = h.id := by
  by_cases hb : h.id = pid <;> simp [hitoUpdFn, hb]

/-- The UPDATE row transformation never changes a row's `item`. -/
theorem hitoUpdFn_item (pid : Nat) (ve vi vu vf vc vl : SqlVal) (h : HitoRow) :
    (hitoUpdFn pid ve vi vu vf vc vl h).item = h.item := by
  by_cases hb : h.id = pid <;> simp [hitoUpdFn, hb]

/-- The UPDATE column check is implied by the INSERT column check. -/
theorem hitoUpdateOk_of_insertOk {vitem vetapa vini vubi : SqlVal}
    {etapas : List EtapaRow}
    (h : hitoInsertOk vitem vetapa vini vubi etapas = true) :
    hitoUpdateOk vetapa vini vubi etapas = true := by
  simp only [hitoInsertOk, Bool.and_eq_true] at h
  simp only [hitoUpdateOk, Bool.and_eq_true]
  exact ⟨⟨⟨h.1.1.1.2, h.1.1.2⟩, h.1.2⟩, h.2⟩

/-! Claims. -/

/-- C1: for every stage id, `DELETE /api/etapas/:id` first counts the
hitos referencing that stage; a positive count yields a 400 response with
an explanatory error and the full database state (both tables) unchanged;
a zero count deletes exactly the rows with that stage id and yields 200
with a success confirmation, the hitos table untouched. -/
theorem C1_etapa_delete_guard (s : DB) (pid : Nat) :
    (countRefs pid s > 0 →
      apiEtapasDelete pid s =
        (⟨400, .error "No se puede eliminar esta etapa porque está siendo utilizada por uno o más hitos"⟩, s)) ∧
    (countRefs pid s = 0 →
      (apiEtapasDelete pid s).1 = ⟨200, .success⟩ ∧
      (apiEtapasDelete pid s).2.etapas = (s.etapas.filter fun e => e.id ≠ pid) ∧
      (apiEtapasDelete pid s).2.hitos = s.hitos) := by
  constructor
  · intro h
    simp [apiEtapasDelete, h]
  · intro h
    simp [apiEtapasDelete, h]

/-- Witness for C1 at a concrete state: stage 1 of `s0` is referenced by a
hito, so the delete is rejected with 400 and the state is unchanged. -/
theorem C1_etapa_delete_guard_witness :
    countRefs 1 s0 > 0 ∧
    apiEtapasDelete 1 s0 =
      (⟨400, .error "No se puede eliminar esta etapa porque está siendo utilizada por uno o más hitos"⟩, s0) :=
  ⟨by decide, (C1_etapa_delete_guard s0 1).1 (by decide)⟩

/-- C4 (code bug): the spec requires the bootstrap connection to be
released on every path, but the `connection.release()` call sits at the
end of the `try` block, not in a `finally`: on the run where the first
CREATE TABLE query throws after the connection was acquired, control
jumps to the `catch` (which only logs) and the connection is never
released. -/
theorem C4_initDB_leak :
    initDB ⟨true, false, true, true, false, true⟩ =
      ⟨true, false, true⟩ ∧
    (∀ env : InitEnv, initDB env = ⟨true, true, false⟩ ∨
      (initDB env).released = false) := by
  refine ⟨rfl, ?_⟩
  intro env
  by_cases h1 : env.getConnOk <;> by_cases h2 : env.createEtapasOk <;>
    by_cases h3 : env.createHitosOk <;> by_cases h4 : env.selectEtapasOk <;>
    by_cases h5 : env.etapasEmpty <;> by_cases h6 : env.insertSeedOk <;>
    simp [initDB, h1, h2, h3, h4, h5, h6]

/-- C8: for an id matching no existing row, the stage delete, milestone
update and milestone delete endpoints all answer 200 with the generic
success body (never 404) and leave the database state unchanged. The
stage-delete case also needs that no hito references the absent id, which
the foreign-key constraint guarantees in every reachable state. -/
theorem C8_missing_id_silent_success (s : DB) (pid : Nat) (b : HitoBody)
    (he : ∀ e ∈ s.etapas, e.id ≠ pid)
    (hr : ∀ h ∈ s.hitos, ¬ sqlRefEq h.etapa_id pid)
    (hh : ∀ h ∈ s.hitos, h.id ≠ pid) :
    apiEtapasDelete pid s = (⟨200, .success⟩, s) ∧
    apiHitosPut pid b s = (⟨200, .success⟩, s) ∧
    apiHitosDelete pid s = (⟨200, .success⟩, s) := by
  refine ⟨?_, ?_, ?_⟩
  · have hc : countRefs pid s = 0 := by
      simp only [countRefs]
      exact List.countP_eq_zero.mpr (by simpa using hr)
    have hf : (s.etapas.filter fun e => !decide (e.id = pid)) = s.etapas :=
      List.filter_eq_self.mpr (by simpa using he)
    simp [apiEtapasDelete, hc, hf]
  · have hany : (s.hitos.any fun h => h.id = pid) = false := by
      simp only [List.any_eq_false]
      simpa using hh
    have hmap : applyHitoUpdate pid (toSql b.etapa_id) (toSql b.fecha_inicio)
        (toSql b.ubicacion) (toSql (jsOr b.fecha_finalizacion JVal.null))
        (toSql b.comentarios) (toSql b.ilustracion) s.hitos = s.hitos := by
      simp only [applyHitoUpdate]
      apply map_eq_self_of_fix
      intro a ha
      simp [hitoUpdFn, hh a ha]
    simp [apiHitosPut, hany, hmap]
  · have hf : (s.hitos.filter fun h => !decide (h.id = pid)) = s.hitos :=
      List.filter_eq_self.mpr (by simpa using hh)
    simp [apiHitosDelete, hf]

/-- Witness for C8: id 99 matches nothing in `s0`; all three endpoints
answer 200 success and leave `s0` unchanged. -/
theorem C8_missing_id_silent_success_witness :
    apiEtapasDelete 99 s0 = (⟨200, .success⟩, s0) ∧
    apiHitosPut 99 ⟨.num 1, .num 1, .str "d", .str "u", .null, .null, .null⟩ s0 =
      (⟨200, .success⟩, s0) ∧
    apiHitosDelete 99 s0 = (⟨200, .success⟩, s0) :=
  C8_missing_id_silent_success s0 99 _
    (by decide) (by decide) (by decide)

/-- C9: the upload filter tests MIME type and extension with the
unanchored regex, so the file named `a.apngx` with declared MIME type
`image/apng` is accepted although its extension `.apngx` is not one of
`.jpeg`, `.jpg`, `.png`, `.gif` — both strings merely contain `png`. -/
theorem C9_unanchored_filter_accepts_substring :
    fileFilter ⟨"a.apngx", "image/apng", 10⟩ = true ∧
    extname "a.apngx" = ".apngx" ∧
    strToLower (extname "a.apngx") ∉ [".jpeg", ".jpg", ".png", ".gif"] ∧
    "image/apng" ∉ ["image/jpeg", "image/jpg", "image/png", "image/gif"] := by
  refine ⟨by decide, by decide, by decide, by decide⟩

/-- C5: an uploaded file passes the multer pipeline (and reaches the
route handler as `req.file`) if and only if its size is at most 5 MiB,
its declared MIME type passes the type regex, and its lower-cased file
extension passes the type regex — both regex checks must hold
independently. -/
theorem C5_upload_accept_iff (now : Nat) (f : UploadFile) :
    (∃ fn, multerSingle now (some f) = .ok (some fn)) ↔
      (f.size ≤ 5 * 1024 * 1024 ∧ filetypesTest f.mimetype = true ∧
       filetypesTest (strToLower (extname f.originalname)) = true) := by
  by_cases h1 : filetypesTest f.mimetype <;>
    by_cases h2 : filetypesTest (strToLower (extname f.originalname)) <;>
    by_cases h3 : f.size ≤ 5242880 <;>
    simp [multerSingle, fileFilter, fileSizeLimit, h1, h2, h3]

/-- Witness for C5: a 1000-byte `foto.PNG` with MIME `image/png` is
accepted (the extension check lower-cases `.PNG`). -/
theorem C5_upload_accept_iff_witness :
    (∃ fn, multerSingle 7 (some ⟨"foto.PNG", "image/png", 1000⟩) =
      .ok (some fn)) ↔
    (1000 ≤ 5 * 1024 * 1024 ∧ filetypesTest "image/png" = true ∧
     filetypesTest (strToLower (extname "foto.PNG")) = true) :=
  C5_upload_accept_iff 7 ⟨"foto.PNG", "image/png", 1000⟩

/-- C6: `POST /api/upload` answers 400 when the `imagen` field carries no
file, 500 when the carried file fails the type filter or the size cap,
and on success 200 with a JSON url equal to scheme ++ host ++ the static
prefix ++ the stored filename (the `Date.now()` timestamp concatenated
with the original extension). -/
theorem C6_upload_route (req : UploadReq) :
    (req.file = none →
      apiUpload req = ⟨400, .error "No se ha enviado ninguna imagen"⟩) ∧
    (∀ f, req.file = some f → (fileFilter f = false ∨ fileSizeLimit < f.size) →
      (apiUpload req).status = 500) ∧
    (∀ f, req.file = some f → fileFilter f = true → f.size ≤ fileSizeLimit →
      apiUpload req = ⟨200, .url (req.protocol ++ "://" ++ req.host ++
        "/uploads/" ++ (toString req.now ++ extname f.originalname))⟩) := by
  refine ⟨?_, ?_, ?_⟩
  · intro h
    simp [apiUpload, multerSingle, h]
  · intro f hf hbad
    rcases hbad with hb | hb
    · simp [apiUpload, multerSingle, hf, hb]
    · by_cases hff : fileFilter f <;>
        simp [apiUpload, multerSingle, hf, hff, Nat.not_le.mpr hb]
  · intro f hf h1 h2
    simp [apiUpload, multerSingle, hf, h1, h2, storedFilename]

/-- Witness for C6: an accepted upload of `a.png` over `http` at host
`example.com` with timestamp 123 yields the public URL. -/
theorem C6_upload_route_witness :
    apiUpload ⟨"http", "example.com", 123, some ⟨"a.png", "image/png", 100⟩⟩ =
      ⟨200, .url ("http" ++ "://" ++ "example.com" ++ "/uploads/" ++
        (toString 123 ++ extname "a.png"))⟩ :=
  (C6_upload_route ⟨"http", "example.com", 123, some ⟨"a.png", "image/png", 100⟩⟩).2.2
    ⟨"a.png", "image/png", 100⟩ rfl (by decide) (by decide)

/-- C7 counterexample: the claim promises 201 (with default color
`#4f46e5`) for a body that omits `color`, but the handler always binds
the `color` column: the omitted field destructures to `undefined`, is
serialized as SQL NULL, violates the NOT NULL constraint, and the
response is 500 with no row created. -/
theorem C7_counterexample :
    (apiEtapasPost ⟨.str "Review", .undefined⟩ s1).1.status = 500 ∧
    (apiEtapasPost ⟨.str "Review", .undefined⟩ s1).2 = s1 :=
  ⟨rfl, rfl⟩

/-- C7 (amended): when the body supplies string values for both `nombre`
and `color`, the endpoint answers 201 echoing `{id, nombre, color}` with
the generated id and appends exactly that row; when the body omits
`color`, the insert binds SQL NULL for a NOT NULL column, fails, and the
endpoint answers 500 leaving the state unchanged — the schema-level
DEFAULT `#4f46e5` is never applied through this endpoint. -/
theorem C7_etapa_create (s : DB) (b : EtapaBody) :
    (∀ n c : String, b.nombre = .str n → b.color = .str c →
      apiEtapasPost b s =
        (⟨201, .etapaCreated s.nextEtapaId b.nombre b.color⟩,
         { s with etapas := s.etapas ++ [⟨s.nextEtapaId, .str n, .str c⟩],
                  nextEtapaId := s.nextEtapaId + 1 })) ∧
    (b.color = .undefined →
      (apiEtapasPost b s).1.status = 500 ∧ (apiEtapasPost b s).2 = s) := by
  constructor
  · intro n c hn hc
    simp [apiEtapasPost, hn, hc, toSql]
  · intro hc
    simp [apiEtapasPost, hc, toSql]

/-- Witness for C7 at a concrete state: creating `{Review, #123456}` on
`s1` answers 201 with id 2 and stores the row. -/
theorem C7_etapa_create_witness :
    apiEtapasPost ⟨.str "Review", .str "#123456"⟩ s1 =
      (⟨201, .etapaCreated 2 (.str "Review") (.str "#123456")⟩,
       ⟨[e1, ⟨2, .str "Review", .str "#123456"⟩], [], 3, 1⟩) :=
  (C7_etapa_create s1 ⟨.str "Review", .str "#123456"⟩).1 "Review" "#123456" rfl rfl

/-- C10 counterexample: the claim says a create whose body omits
`comentarios` and `ilustracion` fails with 500; in fact `pool.query`
serializes the undefined bind parameters as SQL NULL, the nullable
columns accept them, and the create succeeds with 201 storing NULL. -/
theorem C10_counterexample :
    (apiHitosPost ⟨.num 1, .num 1, .str "2024-01-01", .str "X",
        .undefined, .undefined, .undefined⟩ s1).1.status = 201 ∧
    (apiHitosPost ⟨.num 1, .num 1, .str "2024-01-01", .str "X",
        .undefined, .undefined, .undefined⟩ s1).2.hitos =
      [⟨1, .int 1, .int 1, .str "2024-01-01", .str "X",
        SqlVal.null, SqlVal.null, SqlVal.null⟩] :=
  ⟨rfl, rfl⟩

/-- C10 (amended): in milestone create and update only
`fecha_finalizacion` is explicitly coalesced (`|| null`); an omitted
`comentarios` or `ilustracion` is passed as an undefined bind parameter,
which the driver's client-side escaping serializes as SQL NULL, so when
the required columns are valid the operation succeeds (201 / 200) and
stores NULL for the omitted optional fields. -/
theorem C10_omitted_optionals_store_null (s : DB) (b : HitoBody) (pid : Nat)
    (hok : hitoInsertOk (toSql b.item) (toSql b.etapa_id)
      (toSql b.fecha_inicio) (toSql b.ubicacion) s.etapas = true)
    (hcom : b.comentarios = .undefined) (hilu : b.ilustracion = .undefined) :
    apiHitosPost b s =
      (⟨201, .hitoCreated s.nextHitoId⟩,
       { s with hitos := s.hitos ++
           [⟨s.nextHitoId, toSql b.item, toSql b.etapa_id, toSql b.fecha_inicio,
             toSql b.ubicacion, toSql (jsOr b.fecha_finalizacion JVal.null),
             SqlVal.null, SqlVal.null⟩],
                nextHitoId := s.nextHitoId + 1 }) ∧
    apiHitosPut pid b s =
      (⟨200, .success⟩,
       { s with hitos := applyHitoUpdate pid (toSql b.etapa_id)
                           (toSql b.fecha_inicio) (toSql b.ubicacion)
                           (toSql (jsOr b.fecha_finalizacion JVal.null))
                           SqlVal.null SqlVal.null s.hitos }) := by
  have hupd := hitoUpdateOk_of_insertOk hok
  have hnull : toSql JVal.undefined = SqlVal.null := rfl
  constructor
  · simp [apiHitosPost, hok, hcom, hilu, hnull]
  · simp [apiHitosPut, hupd, hcom, hilu, hnull]

/-- Witness for C10: creating and updating with `b10` (comments and
illustration omitted, empty-string completion date) succeeds and stores
NULL in the optional columns. -/
theorem C10_omitted_optionals_store_null_witness :
    apiHitosPost b10 s1 =
      (⟨201, .hitoCreated 1⟩,
       ⟨[e1], [⟨1, .int 2, .int 1, .str "2024-03-01", .str "Y",
                SqlVal.null, SqlVal.null, SqlVal.null⟩], 2, 2⟩) ∧
    apiHitosPut 1 b10 s1 = (⟨200, .success⟩, s1) :=
  C10_omitted_optionals_store_null s1 b10 1 (by decide) rfl rfl

/-- C3: `PUT /api/hitos/:id` is a full replace: `id` and `item` of every
row are never changed on any path, the `etapas` table is never touched,
and whenever the update succeeds (status 200) every row whose id matches
carries exactly the six bound column values — the body's values as
serialized by the driver, with `fecha_finalizacion` coalesced by
`|| null` — while every other row is untouched. -/
theorem C3_put_full_replace (s : DB) (b : HitoBody) (pid : Nat) :
    ((apiHitosPut pid b s).2.hitos.map (fun h => (h.id, h.item)) =
      s.hitos.map fun h => (h.id, h.item)) ∧
    ((apiHitosPut pid b s).2.etapas = s.etapas) ∧
    ((apiHitosPut pid b s).1.status = 200 →
      (apiHitosPut pid b s).2.hitos = s.hitos.map fun h =>
        if h.id = pid then
          { h with etapa_id := toSql b.etapa_id,
                   fecha_inicio := toSql b.fecha_inicio,
                   ubicacion := toSql b.ubicacion,
                   fecha_finalizacion := toSql (jsOr b.fecha_finalizacion JVal.null),
                   comentarios := toSql b.comentarios,
                   ilustracion := toSql b.ilustracion }
        else h) := by
  simp only [apiHitosPut]
  split
  · exact ⟨rfl, rfl, by intro hst; exact absurd hst (by simp)⟩
  · refine ⟨?_, rfl, fun _ => rfl⟩
    simp only [applyHitoUpdate, List.map_map]
    apply List.map_congr_left
    intro a _
    by_cases hid : a.id = pid <;> simp [hitoUpdFn, hid]

/-- Witness for C3 at a concrete input: updating hito 1 of `s0` with
`b10` succeeds and replaces the six columns of the matching row. -/
theorem C3_put_full_replace_witness :
    ((apiHitosPut 1 b10 s0).2.hitos.map (fun h => (h.id, h.item)) =
      s0.hitos.map fun h => (h.id, h.item)) ∧
    ((apiHitosPut 1 b10 s0).2.etapas = s0.etapas) ∧
    ((apiHitosPut 1 b10 s0).2.hitos = s0.hitos.map fun h =>
      if h.id = 1 then
        { h with etapa_id := toSql b10.etapa_id,
                 fecha_inicio := toSql b10.fecha_inicio,
                 ubicacion := toSql b10.ubicacion,
                 fecha_finalizacion := toSql (jsOr b10.fecha_finalizacion JVal.null),
                 comentarios := toSql b10.comentarios,
                 ilustracion := toSql b10.ilustracion }
      else h) :=
  ⟨(C3_put_full_replace s0 b10 1).1, (C3_put_full_replace s0 b10 1).2.1,
   (C3_put_full_replace s0 b10 1).2.2 rfl⟩

/-- C2 counterexample: hito 1 of `s0` has comments `"keep"`; the update
body `b2` explicitly includes new `ubicacion` and `fecha_finalizacion`
values but omits `comentarios`; after the update (which succeeds with
200) the re-listed row shows comments NULL — a field not explicitly
included in the update body was changed, contradicting the claim. -/
theorem C2_counterexample :
    b2.ubicacion = .str "B" ∧ b2.fecha_finalizacion = .str "2024-02-02" ∧
    b2.comentarios = .undefined ∧
    h1 ∈ s0.hitos ∧ h1.comentarios = .str "keep" ∧
    (apiHitosPut 1 b2 s0).1.status = 200 ∧
    apiHitosGet (apiHitosPut 1 b2 s0).2 =
      ⟨200, .hitoRows [⟨1, .int 1, .int 1, .str "2024-01-01", .str "B",
        .str "2024-02-02", SqlVal.null, SqlVal.null,
        .str "Planificación", .str "#4f46e5"⟩]⟩ :=
  ⟨rfl, rfl, rfl, by decide, rfl, rfl, by
    simp [apiHitosGet, apiHitosPut, hitoUpdateOk, etapaExists, sqlRefEq,
      toSql, b2, s0, h1, e1, applyHitoUpdate, hitoUpdFn, hitosJoined, jsOr,
      JVal.truthy, List.mergeSort, itemLe]⟩

/-- C2 (amended): for every existing milestone, after an update whose
body explicitly includes a new `ubicacion` (location) and a new truthy
`fecha_finalizacion` (completion date) together with constraint-valid
`etapa_id` and `fecha_inicio`, re-listing milestones shows exactly those
new values for that milestone and its `id` and `item` are unchanged;
the remaining updatable columns take the serialized body values — an
omitted optional field is stored as NULL rather than preserved. -/
theorem C2_update_then_relist (s : DB) (mid : Nat) (h0 : HitoRow)
    (b : HitoBody) (L F : String)
    (hmem : h0 ∈ s.hitos) (hid0 : h0.id = mid)
    (hnodup : (s.hitos.map HitoRow.id).Nodup)
    (hub : b.ubicacion = .str L)
    (hfin : b.fecha_finalizacion = .str F) (hF : F ≠ "")
    (hok : hitoUpdateOk (toSql b.etapa_id) (toSql b.fecha_inicio)
      (toSql b.ubicacion) s.etapas = true) :
    (apiHitosPut mid b s).1.status = 200 ∧
    ∃ rows, (apiHitosGet (apiHitosPut mid b s).2).body = .hitoRows rows ∧
      (∃ r ∈ rows, r.id = mid) ∧
      (∀ r ∈ rows, r.id = mid →
        r.ubicacion = .str L ∧ r.fecha_finalizacion = .str F ∧
        r.item = h0.item ∧ r.etapa_id = toSql b.etapa_id ∧
        r.fecha_inicio = toSql b.fecha_inicio ∧
        r.comentarios = toSql b.comentarios ∧
        r.ilustracion = toSql b.ilustracion) := by
  have hvubi : toSql b.ubicacion = SqlVal.str L := by rw [hub]; rfl
  have hvfin : toSql (jsOr b.fecha_finalizacion JVal.null) = SqlVal.str F := by
    rw [hfin]; simp [jsOr, JVal.truthy, hF, toSql]
  have hput1 : (apiHitosPut mid b s).1.status = 200 := by
    simp [apiHitosPut, hok]
  have hput2 : (apiHitosPut mid b s).2.hitos =
      s.hitos.map (hitoUpdFn mid (toSql b.etapa_id) (toSql b.fecha_inicio)
        (toSql b.ubicacion) (toSql (jsOr b.fecha_finalizacion JVal.null))
        (toSql b.comentarios) (toSql b.ilustracion)) := by
    simp [apiHitosPut, hok, applyHitoUpdate]
  have hpute : (apiHitosPut mid b s).2.etapas = s.etapas := by
    simp [apiHitosPut, hok]
  have hfh0 : hitoUpdFn mid (toSql b.etapa_id) (toSql b.fecha_inicio)
      (toSql b.ubicacion) (toSql (jsOr b.fecha_finalizacion JVal.null))
      (toSql b.comentarios) (toSql b.ilustracion) h0 =
      { h0 with etapa_id := toSql b.etapa_id,
                fecha_inicio := toSql b.fecha_inicio,
                ubicacion := SqlVal.str L,
                fecha_finalizacion := SqlVal.str F,
                comentarios := toSql b.comentarios,
                ilustracion := toSql b.ilustracion } := by
    simp [hitoUpdFn, hid0, hvubi, hvfin]
  have hex : etapaExists (toSql b.etapa_id) s.etapas = true := by
    simp only [hitoUpdateOk, Bool.and_eq_true] at hok
    exact hok.1.1.2
  obtain ⟨e, he⟩ : ∃ e, s.etapas.find?
      (fun x => sqlRefEq (toSql b.etapa_id) x.id) = some e := by
    rw [← Option.isSome_iff_exists, List.find?_isSome]
    simpa [etapaExists, List.any_eq_true] using hex
  have hmemiff : ∀ r : JoinedHito,
      r ∈ (hitosJoined (apiHitosPut mid b s).2).mergeSort itemLe ↔
        r ∈ hitosJoined (apiHitosPut mid b s).2 :=
    fun r => (List.mergeSort_perm (hitosJoined (apiHitosPut mid b s).2) itemLe).mem_iff
  refine ⟨hput1, (hitosJoined (apiHitosPut mid b s).2).mergeSort itemLe,
    rfl, ?_, ?_⟩
  · refine ⟨⟨mid, h0.item, toSql b.etapa_id, toSql b.fecha_inicio,
      SqlVal.str L, SqlVal.str F, toSql b.comentarios, toSql b.ilustracion,
      e.nombre, e.color⟩, ?_, rfl⟩
    rw [hmemiff]
    simp only [hitosJoined]
    apply List.mem_filterMap.mpr
    refine ⟨hitoUpdFn mid (toSql b.etapa_id) (toSql b.fecha_inicio)
      (toSql b.ubicacion) (toSql (jsOr b.fecha_finalizacion JVal.null))
      (toSql b.comentarios) (toSql b.ilustracion) h0, ?_, ?_⟩
    · rw [hput2]
      exact List.mem_map_of_mem _ hmem
    · rw [hpute, hfh0]
      simp [he, hid0]
  · intro r hr hrid
    rw [hmemiff] at hr
    simp only [hitosJoined] at hr
    obtain ⟨hrow, hh', hsome⟩ := List.mem_filterMap.mp hr
    rw [hput2] at hh'
    obtain ⟨h, hh, rfl⟩ := List.mem_map.mp hh'
    rw [hpute] at hsome
    rcases hfind2 : s.etapas.find? (fun x => sqlRefEq
        (hitoUpdFn mid (toSql b.etapa_id) (toSql b.fecha_inicio)
          (toSql b.ubicacion) (toSql (jsOr b.fecha_finalizacion JVal.null))
          (toSql b.comentarios) (toSql b.ilustracion) h).etapa_id x.id)
        with _ | e2
    · rw [hfind2] at hsome
      simp at hsome
    · rw [hfind2] at hsome
      rw [Option.some_inj] at hsome
      subst hsome
      simp only [hitoUpdFn_id] at hrid
      have heq : h = h0 :=
        List.inj_on_of_nodup_map hnodup hh hmem (hrid.trans hid0.symm)
      subst heq
      rw [hfh0]
      exact ⟨rfl, rfl, rfl, rfl, rfl, rfl, rfl⟩

/-- Witness for C2 at a concrete input: updating hito 1 of `s0` with
body `b2` (new location `B`, new completion date `2024-02-02`) and
re-listing shows those values on the unique row with id 1. -/
theorem C2_update_then_relist_witness :
    (apiHitosPut 1 b2 s0).1.status = 200 ∧
    ∃ rows, (apiHitosGet (apiHitosPut 1 b2 s0).2).body = .hitoRows rows ∧
      (∃ r ∈ rows, r.id = 1) ∧
      (∀ r ∈ rows, r.id = 1 →
        r.ubicacion = .str "B" ∧ r.fecha_finalizacion = .str "2024-02-02" ∧
        r.item = h1.item ∧ r.etapa_id = toSql b2.etapa_id ∧
        r.fecha_inicio = toSql b2.fecha_inicio ∧
        r.comentarios = toSql b2.comentarios ∧
        r.ilustracion = toSql b2.ilustracion) :=
  C2_update_then_relist s0 1 h1 b2 "B" "2024-02-02"
    (by decide) rfl (by decide) rfl rfl (by decide) (by decide)

end ApiHitos
